import Mathlib

/-!
# Verification of the DeepForecasting web-app forecasting engine

A shallow embedding of the pure core of `backend/app/services/forecaster.py`
and the configuration validators of `backend/app/models.py`:

* machine floats occurring in the Python code are modelled as exact rationals
  (`ℚ`); the irrational outputs of `np.sqrt` / `np.log1p` are modelled in `ℝ`;
* pandas dataframes with columns `ds`, `y` are modelled as `List Row`
  (the ingestion validator guarantees a sorted two-column table, so a list of
  rows is a faithful rendering);
* Python functions that `raise` are modelled as `Except String` values;
* the three model backends (StatsForecast / MLForecast / NeuralForecast) are
  external numerical libraries; where a claim quantifies over dispatcher
  behaviour the dispatcher is a function parameter of the embedding.
-/

/-- A single observation of the two-column (`ds`, `y`) time-series table.
Timestamps are modelled by an integer key (only ordering and identity of
timestamps matter to the verified code), values by exact rationals. -/
structure Row where
  ds : ℤ
  y : ℚ
  deriving DecidableEq, Repr

/-- `app.models.ModuleType`: the supported forecasting modules. -/
inductive ModuleType
  | statsforecast
  | mlforecast
  | neuralforecast
  deriving DecidableEq, Repr

/-- `app.models.Strategy`: the supported forecasting strategies. -/
inductive Strategy
  | one_step
  | multi_step_recursive
  | multi_output_direct
  deriving DecidableEq, Repr

/-- `app.models.MissingStrategy`: ways to handle missing values. -/
inductive MissingStrategy
  | nothing
  | drop
  | forward_fill
  | interpolate
  deriving DecidableEq, Repr

/-- `app.models.ALLOWED_FREQUENCIES`. -/
def ALLOWED_FREQUENCIES : List String :=
  ["H", "D", "W", "MS", "M", "QS", "Q", "YS", "Y"]

/-- `app.models.STATSFORECAST_MODELS`. -/
def STATSFORECAST_MODELS : List String :=
  ["arima", "auto_arima", "auto_ets", "naive", "seasonal_naive",
   "random_walk_with_drift", "window_average", "seasonal_window_average"]

/-- `app.models.MLFORECAST_MODELS`. -/
def MLFORECAST_MODELS : List String :=
  ["xgboost", "lightgbm", "random_forest", "catboost", "linear"]

/-- `app.models.NEURALFORECAST_MODELS`. -/
def NEURALFORECAST_MODELS : List String := ["mlp", "rnn", "lstm", "gru"]

/-- `app.models.ForecastConfig` after successful pydantic validation.
Python `int` fields are `ℤ`, `float` fields `ℚ`, `None`-able fields
`Option`s; the date bounds stay uninterpreted strings (never parsed by the
verified code). -/
structure ForecastConfig where
  module_type : ModuleType
  model_type : String
  strategy : Strategy
  freq : String
  season_length : ℤ
  horizon : ℤ
  lags : Option (List ℤ)
  input_size : Option ℤ
  num_layers : Option ℤ
  hidden_size : Option ℤ
  epochs : Option ℤ
  early_stop_patience : Option ℤ
  early_stop_validation_fraction : Option ℚ
  level : List ℤ
  log_transform : Bool
  detect_frequency : Bool
  missing_strategy : MissingStrategy
  date_start : Option String
  date_end : Option String
  test_size_fraction : Option ℚ
  deriving DecidableEq, Repr

/-- The raw field values handed to `ForecastConfig(**...)` before any
validator runs (`level` may be absent, `model_type` unnormalized, ...). -/
structure RawConfig where
  module_type : ModuleType
  model_type : String
  strategy : Strategy
  freq : String
  season_length : ℤ
  horizon : ℤ
  lags : Option (List ℤ)
  input_size : Option ℤ
  num_layers : Option ℤ
  hidden_size : Option ℤ
  epochs : Option ℤ
  early_stop_patience : Option ℤ
  early_stop_validation_fraction : Option ℚ
  level : Option (List ℤ)
  log_transform : Bool
  detect_frequency : Bool
  missing_strategy : MissingStrategy
  date_start : Option String
  date_end : Option String
  test_size_fraction : Option ℚ
  deriving DecidableEq, Repr

/-- Python's `str.lower` (character-wise lower-casing). -/
def py_to_lower (s : String) : String := String.mk (s.toList.map Char.toLower)

/-- Python's `sorted(set(l))` for integer lists: the distinct elements in
ascending order. -/
def sorted_unique (l : List ℤ) : List ℤ :=
  l.dedup.mergeSort (fun a b => decide (a ≤ b))

/-- `ForecastConfig.validate_frequency` (models.py 155-164). -/
def validate_frequency (freq : String) : Except String String :=
  if freq ∈ ALLOWED_FREQUENCIES then .ok freq
  else .error "Unsupported freq. Choose one of the allowed frequencies."

/-- `ForecastConfig.validate_positive_int` (models.py 166-172), also covering
the pydantic `gt=0` bound on `season_length` / `horizon`. -/
def validate_positive_int (value : ℤ) : Except String ℤ :=
  if value ≤ 0 then .error "Value must be greater than zero." else .ok value

/-- `ForecastConfig.normalize_model` (models.py 174-181). -/
def normalize_model (model_type : String) : Except String String :=
  let model := model_type.trim
  if model = "" then .error "model_type cannot be empty."
  else .ok (py_to_lower model)

/-- `ForecastConfig.validate_lags` (models.py 183-195). -/
def validate_lags : Option (List ℤ) → Except String (Option (List ℤ))
  | none => .ok none
  | some lags =>
      if lags.any (fun lag => lag ≤ 0) then
        .error "Lag values must be greater than zero."
      else .ok (some (sorted_unique lags))

/-- `ForecastConfig.validate_input_size` (models.py 197-205). -/
def validate_input_size : Option ℤ → Except String (Option ℤ)
  | none => .ok none
  | some n => if n ≤ 0 then .error "input_size must be greater than zero." else .ok (some n)

/-- `ForecastConfig.validate_num_layers` (models.py 207-215). -/
def validate_num_layers : Option ℤ → Except String (Option ℤ)
  | none => .ok none
  | some n => if n = 1 ∨ n = 2 then .ok (some n) else .error "num_layers must be 1 or 2."

/-- `ForecastConfig.validate_hidden_size` (models.py 217-225). -/
def validate_hidden_size : Option ℤ → Except String (Option ℤ)
  | none => .ok none
  | some n => if n ≤ 0 then .error "hidden_size must be greater than zero." else .ok (some n)

/-- `ForecastConfig.validate_epochs` (models.py 227-235). -/
def validate_epochs : Option ℤ → Except String (Option ℤ)
  | none => .ok none
  | some n => if n ≤ 0 then .error "epochs must be greater than zero." else .ok (some n)

/-- `ForecastConfig.validate_early_stop_patience` (models.py 237-246). -/
def validate_early_stop_patience : Option ℤ → Except String (Option ℤ)
  | none => .ok none
  | some n =>
      if n ≤ 0 then .error "early_stop_patience must be greater than zero."
      else .ok (some n)

/-- `ForecastConfig.validate_early_stop_fraction` (models.py 248-256). -/
def validate_early_stop_fraction : Option ℚ → Except String (Option ℚ)
  | none => .ok none
  | some f =>
      if f ≤ 0 ∨ (1 : ℚ) / 2 ≤ f then
        .error "early_stop_validation_fraction must be between 0 and 0.5."
      else .ok (some f)

/-- `ForecastConfig.validate_levels` (models.py 258-270). -/
def validate_levels : Option (List ℤ) → Except String (List ℤ)
  | none => .ok [80, 90]
  | some level =>
      let levels := sorted_unique level
      if levels = [] then .error "At least one confidence level is required."
      else if levels.any (fun lvl => lvl ≤ 0 ∨ 100 ≤ lvl) then
        .error "Confidence levels must be between 1 and 99."
      else .ok levels

/-- `ForecastConfig.validate_test_size_fraction` (models.py 272-280). -/
def validate_test_size_fraction : Option ℚ → Except String (Option ℚ)
  | none => .ok none
  | some f =>
      if f < 0 ∨ 1 ≤ f then .error "test_size_fraction must be between 0 and 1."
      else .ok (some f)

/-- `ForecastConfig.validate_module_combinations` (models.py 282-328): the
`mode="after"` model validator enforcing module-specific constraints. -/
def validate_module_combinations (c : ForecastConfig) : Except String ForecastConfig :=
  match c.module_type with
  | .statsforecast =>
      if c.strategy = .multi_output_direct then
        .error "multi_output_direct is not supported for StatsForecast."
      else if c.lags ≠ none then
        .error "lags are only used with MLForecast models."
      else if c.input_size ≠ none then
        .error "input_size is only used with NeuralForecast models."
      else if c.num_layers ≠ none ∨ c.hidden_size ≠ none ∨ c.epochs ≠ none then
        .error "num_layers, hidden_size, and epochs are only used with NeuralForecast models."
      else if c.model_type ∈ STATSFORECAST_MODELS then .ok c
      else .error "Model is not valid for the selected module."
  | .mlforecast =>
      if c.lags = none ∨ c.lags = some [] then
        .error "Provide at least one lag for MLForecast models."
      else if c.input_size ≠ none then
        .error "input_size is only used with NeuralForecast models."
      else if c.num_layers ≠ none ∨ c.hidden_size ≠ none ∨ c.epochs ≠ none then
        .error "num_layers, hidden_size, and epochs are only used with NeuralForecast models."
      else if c.model_type ∈ MLFORECAST_MODELS then .ok c
      else .error "Model is not valid for the selected module."
  | .neuralforecast =>
      if c.input_size = none then
        .error "input_size is required for NeuralForecast models."
      else if c.lags ≠ none then
        .error "lags are not used with NeuralForecast models."
      else if c.model_type ∈ NEURALFORECAST_MODELS then .ok c
      else .error "Model is not valid for the selected module."

/-- Constructing a `ForecastConfig`: pydantic runs the per-field validators
(in field declaration order) and then the `validate_module_combinations`
model validator; any `ValueError` aborts construction. -/
def mkForecastConfig (raw : RawConfig) : Except String ForecastConfig := do
  let model_type ← normalize_model raw.model_type
  let freq ← validate_frequency raw.freq
  let season_length ← validate_positive_int raw.season_length
  let horizon ← validate_positive_int raw.horizon
  let lags ← validate_lags raw.lags
  let input_size ← validate_input_size raw.input_size
  let num_layers ← validate_num_layers raw.num_layers
  let hidden_size ← validate_hidden_size raw.hidden_size
  let epochs ← validate_epochs raw.epochs
  let early_stop_patience ← validate_early_stop_patience raw.early_stop_patience
  let early_stop_validation_fraction ←
    validate_early_stop_fraction raw.early_stop_validation_fraction
  let level ← validate_levels raw.level
  let test_size_fraction ← validate_test_size_fraction raw.test_size_fraction
  validate_module_combinations
    { module_type := raw.module_type
      model_type := model_type
      strategy := raw.strategy
      freq := freq
      season_length := season_length
      horizon := horizon
      lags := lags
      input_size := input_size
      num_layers := num_layers
      hidden_size := hidden_size
      epochs := epochs
      early_stop_patience := early_stop_patience
      early_stop_validation_fraction := early_stop_validation_fraction
      level := level
      log_transform := raw.log_transform
      detect_frequency := raw.detect_frequency
      missing_strategy := raw.missing_strategy
      date_start := raw.date_start
      date_end := raw.date_end
      test_size_fraction := test_size_fraction }

/-! ## `NixtlaService` helpers (forecaster.py) -/

/-- `NixtlaService._determine_test_size` (forecaster.py 355-368): how many
trailing rows to reserve for the metric holdout.  `np.ceil` on the exact
product is `⌈·⌉ : ℚ → ℤ`. -/
def determine_test_size (total_rows : ℕ) (config : ForecastConfig) : ℤ :=
  if total_rows ≤ 1 then 0
  else
    match config.test_size_fraction with
    | none => max 0 (min config.horizon ((total_rows : ℤ) - 1))
    | some fraction =>
        if fraction ≤ 0 then 0
        else max 1 (min ⌈(total_rows : ℚ) * fraction⌉ ((total_rows : ℤ) - 1))

/-- `NixtlaService._train_test_split` (forecaster.py 283-295): hold out the
last `holdout_size` rows of `df` (and of `raw_df` when given) when possible.
Polymorphic in the row type, as the source splits both the (possibly
log-transformed) model table and the raw table. -/
def train_test_split {α β : Type} (df : List α) (holdout_size : ℤ)
    (raw_df : Option (List β)) : List α × Option (List α) × Option (List β) :=
  if holdout_size ≤ 0 ∨ (df.length : ℤ) ≤ holdout_size then (df, none, none)
  else
    let h := holdout_size.toNat
    (df.take (df.length - h), some (df.drop (df.length - h)),
     raw_df.map (fun r => r.drop (r.length - h)))

/-- The loop of `NixtlaService._one_step_forecast` (forecaster.py 321-341):
walk the holdout one row at a time; at each step call the model dispatcher
(`run_forecast`, abstract here since the backends are external libraries)
with the horizon forced to 1, record its point prediction, then append the
true holdout row to the rolling training set.  Alongside the predictions the
embedding records the argument of every dispatcher call, so that "how often
and with what inputs is the dispatcher invoked" is statable. -/
def one_step_loop (run_forecast : List Row → ForecastConfig → ℚ)
    (config : ForecastConfig) :
    List Row → List Row → List ℚ × List (List Row × ForecastConfig)
  | _, [] => ([], [])
  | rolling_train, h :: rest =>
      let step_config := { config with horizon := 1 }
      let pred := run_forecast rolling_train step_config
      let rest_result := one_step_loop run_forecast config (rolling_train ++ [h]) rest
      (pred :: rest_result.1, (rolling_train, step_config) :: rest_result.2)

/-- `NixtlaService._one_step_forecast` (forecaster.py 297-353): one-step
rolling forecasts over a holdout, failing when the holdout is `None` or
empty; the resulting forecast table keys the accumulated predictions by the
holdout timestamps.  (The per-level interval-bound buffers of the source are
bookkeeping over the same dispatcher outputs and are not modelled; the claim
under verification concerns the point predictions and the dispatcher calls.) -/
def one_step_forecast (run_forecast : List Row → ForecastConfig → ℚ)
    (train_df : List Row) (holdout_df : Option (List Row))
    (config : ForecastConfig) :
    Except String (List (ℤ × ℚ) × List (List Row × ForecastConfig)) :=
  match holdout_df with
  | none => .error "One-step forecasting requires holdout data."
  | some holdout =>
      if holdout.isEmpty then .error "One-step forecasting requires holdout data."
      else
        let result := one_step_loop run_forecast config train_df holdout
        .ok ((holdout.map Row.ds).zip result.1, result.2)

/-- `NixtlaService._build_backtest_slices` (forecaster.py 891-914): the
rolling train/test windows `(window_index, train_end, test_start, test_end)`.
Python's `max(1, total_rows - horizon * windows)` on possibly negative
integers agrees with the truncated `ℕ` subtraction composed with `max 1`. -/
def build_backtest_slices (total_rows horizon windows step : ℕ) :
    List (ℕ × ℕ × ℕ × ℕ) :=
  if total_rows ≤ 2 ∨ horizon = 0 then []
  else
    let start := max 1 (total_rows - horizon * windows)
    (List.range windows).filterMap (fun idx =>
      let test_start := start + idx * step
      let test_end := min (test_start + horizon) total_rows
      let train_end := test_start
      if train_end < 2 ∨ total_rows ≤ test_start ∨ test_end ≤ test_start then none
      else some (idx + 1, train_end, test_start, test_end))

/-- The backtest slices exactly as claim C3 words them: tuples
`(i+1, train_end, test_start, test_end)` for `i ∈ [0, w)` with
`start = max(1, total - h*w)`, `test_start = start + i*s`,
`test_end = min(test_start + h, total)`, `train_end = test_start`, a window
kept only when `train_end ≥ 2`, `test_start < total` and
`test_end > test_start`. -/
def backtest_slices_spec (total h w s : ℕ) : List (ℕ × ℕ × ℕ × ℕ) :=
  let start := max 1 (total - h * w)
  (List.range w).filterMap (fun i =>
    let test_start := start + i * s
    let test_end := min (test_start + h) total
    let train_end := test_start
    if 2 ≤ train_end ∧ test_start < total ∧ test_start < test_end then
      some (i + 1, train_end, test_start, test_end)
    else none)



/-- Python's `str.upper` (character-wise upper-casing). -/
def py_to_upper (s : String) : String := String.mk (s.toList.map Char.toUpper)

/-- Python's `str.capitalize`: first character upper-cased, the rest
lower-cased. -/
def py_capitalize (s : String) : String :=
  match s.toList with
  | [] => ""
  | c :: rest => String.mk (c.toUpper :: rest.map Char.toLower)

/-- Does `sub` occur contiguously in `l`? -/
def list_contains_sub (sub : List Char) : List Char → Bool
  | [] => sub.isEmpty
  | c :: t => sub.isPrefixOf (c :: t) || list_contains_sub sub t

/-- Substring containment, Python's `sub in col`. -/
def contains_substring (col sub : String) : Bool := list_contains_sub sub.toList col.toList

/-- The candidate set of `_resolve_model_column` (forecaster.py 477-483):
the model name, its lowercase, its uppercase, its Python-capitalized form
and the generic name `"mean"`. -/
def model_column_candidates (model_type : String) : List String :=
  [model_type, py_to_lower model_type, py_to_upper model_type,
   py_capitalize model_type, "mean"]

/-- The non-interval columns of `_resolve_model_column` (forecaster.py
484-488): columns whose name contains neither `-lo-` nor `-hi-` and is
neither `ds` nor `unique_id`, in dataframe order. -/
def non_interval_columns (columns : List String) : List String :=
  columns.filter (fun col =>
    ¬ contains_substring col "-lo-" ∧ ¬ contains_substring col "-hi-" ∧
      col ≠ "ds" ∧ col ≠ "unique_id")

/-- `NixtlaService._resolve_model_column` (forecaster.py 475-494): find the
forecast column among the returned dataframe's columns.  The source scans
the non-interval columns in dataframe order and returns the first one lying
in the candidate set, else the first non-interval column, else raises. -/
def resolve_model_column (columns : List String) (model_type : String) :
    Except String String :=
  match (non_interval_columns columns).find?
      (fun col => col ∈ model_column_candidates model_type) with
  | some col => .ok col
  | none =>
      match non_interval_columns columns with
      | col :: _ => .ok col
      | [] => .error "Unable to locate forecast column in response."

/-- The `ForecastMetrics` schema as the leaderboard ranker consumes it:
stored float metric values modelled as exact rationals. -/
structure ForecastMetrics where
  mae : Option ℚ
  rmse : Option ℚ
  mape : Option ℚ
  deriving DecidableEq, Repr

/-- `app.models.LeaderboardEntry`, restricted to the fields the ranker
reads (`metrics`) plus the label identifying the run. -/
structure LeaderboardEntry where
  model_label : String
  metrics : ForecastMetrics
  deriving DecidableEq, Repr

/-- The ranking key of `NixtlaService._rank_leaderboard` (forecaster.py
882-887): RMSE when present, else MAE + 1,000,000, else `float("inf")`
(modelled as `⊤` in `WithTop ℚ`). -/
def leaderboard_score (entry : LeaderboardEntry) : WithTop ℚ :=
  match entry.metrics.rmse with
  | some r => (r : WithTop ℚ)
  | none =>
      match entry.metrics.mae with
      | some m => ((m + 1000000 : ℚ) : WithTop ℚ)
      | none => ⊤

/-- `NixtlaService._rank_leaderboard` (forecaster.py 880-889): Python's
`sorted(rows, key=score)` is a stable ascending sort by the key, rendered by
the (stable) `List.mergeSort`. -/
def rank_leaderboard (rows : List LeaderboardEntry) : List LeaderboardEntry :=
  rows.mergeSort (fun a b => decide (leaderboard_score a ≤ leaderboard_score b))

/-- The metrics record produced by `NixtlaService._compute_metrics`: its
float fields are modelled exactly, so `rmse` (a square root) lives in `ℝ`
while `mae` and `mape` stay rational. -/
structure ComputedMetrics where
  mae : Option ℚ
  rmse : Option ℝ
  mape : Option ℚ

/-- `NixtlaService._compute_metrics` (forecaster.py 839-862): MAE, RMSE and
MAPE over the truncated-to-common-length slices; MAPE only over rows whose
actual value is non-zero, `None` when no row qualifies; everything `None`
when either input is empty. -/
noncomputable def compute_metrics (y_true y_pred : List ℚ) : ComputedMetrics :=
  if y_true = [] ∨ y_pred = [] then ⟨none, none, none⟩
  else
    let n := min y_true.length y_pred.length
    let true_arr := y_true.take n
    let pred_arr := y_pred.take n
    let errors := List.zipWith (fun a b => a - b) true_arr pred_arr
    let mae : ℚ := (errors.map (fun e => |e|)).sum / n
    let rmse : ℝ := Real.sqrt (((errors.map (fun e => e ^ 2)).sum / n : ℚ) : ℝ)
    let non_zero := (true_arr.zip errors).filter (fun x => decide (x.1 ≠ 0))
    let mape : Option ℚ :=
      if non_zero = [] then none
      else some (((non_zero.map (fun x => |x.2 / x.1|)).sum / non_zero.length) * 100)
  ⟨some mae, some rmse, mape⟩

/-- `NixtlaService._align_with_actuals` (forecaster.py 750-770): align the
forecast rows positionally with the holdout actuals (overwriting the
forecast timestamps over the overlap) and compute metrics over the overlap;
no metrics when there are no actuals.  A forecast row's `y` is its point
prediction in the resolved model column. -/
noncomputable def align_with_actuals (forecast_df : List Row)
    (holdout_df : Option (List Row)) : List Row × Option ComputedMetrics :=
  match holdout_df with
  | none => (forecast_df, none)
  | some holdout =>
      if holdout.isEmpty then (forecast_df, none)
      else
        let n_match := min forecast_df.length holdout.length
        let aligned :=
          List.zipWith (fun f a => Row.mk a.ds f.y)
            (forecast_df.take n_match) (holdout.take n_match) ++
          forecast_df.drop n_match
        (aligned,
         some (compute_metrics ((holdout.map Row.y).take n_match)
            ((forecast_df.map Row.y).take n_match)))

/-- `metrics or ForecastMetrics()` on forecaster.py 130: the response's
metrics object, all-null when the pipeline computed none. -/
def metrics_or_default (metrics : Option ComputedMetrics) : ComputedMetrics :=
  metrics.getD ⟨none, none, none⟩

/-- A row after the `log1p` transform: the value is a real number. -/
structure LogRow where
  ds : ℤ
  y : ℝ

/-- `np.log1p` on exact inputs. -/
noncomputable def log1p (x : ℚ) : ℝ := Real.log (1 + (x : ℝ))

/-- `NixtlaService._apply_log_transform` (forecaster.py 370-376): validate
that every value exceeds -1, then return a new table with `log1p` applied to
the values (the input table is untouched; the source operates on a copy). -/
noncomputable def apply_log_transform (df : List Row) : Except String (List LogRow) :=
  if df.any (fun r => r.y ≤ -1) then
    .error "log_transform requires all y values to be greater than -1."
  else .ok (df.map (fun r => LogRow.mk r.ds (log1p r.y)))

/-! ## Theorems -/

/-- **C3**: for every total row count and positive horizon, window count and
step size, the rolling-backtest slices of `_build_backtest_slices` are
exactly the tuples the specification describes: `(i+1, train_end,
test_start, test_end)` for `i ∈ [0, w)` with `start = max(1, total - h*w)`,
`test_start = start + i*s`, `test_end = min(test_start + h, total)`,
`train_end = test_start`, keeping a window only when `train_end ≥ 2`,
`test_start < total` and `test_end > test_start`, and retaining the 1-based
window index. -/
theorem build_backtest_slices_eq_spec (total h w s : ℕ)
    (hh : 0 < h) (hw : 0 < w) (hs : 0 < s) :
    build_backtest_slices total h w s = backtest_slices_spec total h w s := by
  rcases le_or_lt total 2 with htot | htot
  · have hspec : backtest_slices_spec total h w s = [] := by
      unfold backtest_slices_spec
      rw [List.filterMap_eq_nil_iff]
      intro i _
      rw [if_neg]
      omega
    rw [hspec]
    unfold build_backtest_slices
    rw [if_pos (Or.inl htot)]
  · unfold build_backtest_slices backtest_slices_spec
    rw [if_neg (by omega)]
    refine List.filterMap_congr (fun i _ => ?_)
    by_cases hc : 2 ≤ max 1 (total - h * w) + i * s ∧ max 1 (total - h * w) + i * s < total ∧
        max 1 (total - h * w) + i * s < min (max 1 (total - h * w) + i * s + h) total
    · rw [if_pos hc, if_neg (by omega)]
    · rw [if_neg hc, if_pos (by omega)]

/-- Witness for C3 at a concrete input: 30 rows, horizon 4, 3 windows of
step 1. -/
theorem build_backtest_slices_eq_spec_witness :
    (0 : ℕ) < 4 ∧ (0 : ℕ) < 3 ∧ (0 : ℕ) < 1 ∧
      build_backtest_slices 30 4 3 1 = backtest_slices_spec 30 4 3 1 :=
  ⟨by norm_num, by norm_num, by norm_num,
    build_backtest_slices_eq_spec 30 4 3 1 (by norm_num) (by norm_num) (by norm_num)⟩

/-- **C1**: on an `n ≥ 2`-row input the single-holdout test size is 0 when
`test_size_fraction` is exactly 0 (the split then keeps the full input as
the training set and no metrics are computed, so the response metrics are
all null), `min(horizon, n-1)` when the fraction is absent, and
`⌈n·f⌉` clamped into `[1, n-1]` for `0 < f < 1`; fraction `1/2` on 6 rows
yields test size 3, hence train size 3. -/
theorem single_holdout_test_size (n : ℕ) (config : ForecastConfig)
    (hn : 2 ≤ n) (hhor : 0 < config.horizon) :
    (config.test_size_fraction = some 0 →
      determine_test_size n config = 0 ∧
      (∀ (df : List Row) (raw : Option (List Row)),
        train_test_split df (determine_test_size n config) raw = (df, none, none)) ∧
      (∀ fcst : List Row, (align_with_actuals fcst none).2 = none) ∧
      metrics_or_default none = ⟨none, none, none⟩) ∧
    (config.test_size_fraction = none →
      determine_test_size n config = min config.horizon ((n : ℤ) - 1)) ∧
    (∀ f : ℚ, config.test_size_fraction = some f → 0 < f → f < 1 →
      determine_test_size n config = max 1 (min ⌈(n : ℚ) * f⌉ ((n : ℤ) - 1))) ∧
    (config.test_size_fraction = some (1 / 2) → n = 6 →
      determine_test_size n config = 3 ∧
      (∀ df : List Row, df.length = 6 →
        (train_test_split df (determine_test_size n config)
          (none : Option (List Row))).1.length = 3)) := by
  refine ⟨?_, ?_, ?_, ?_⟩
  · intro hfrac
    have hdet : determine_test_size n config = 0 := by
      simp only [determine_test_size, hfrac]
      rw [if_neg (by omega), if_pos le_rfl]
    refine ⟨hdet, ?_, ?_, rfl⟩
    · intro df raw
      rw [hdet]
      simp only [train_test_split]
      rw [if_pos (Or.inl le_rfl)]
    · intro fcst
      rfl
  · intro hfrac
    simp only [determine_test_size, hfrac]
    rw [if_neg (by omega)]
    exact max_eq_right (le_min (le_of_lt hhor) (by omega))
  · intro f hfrac hf0 hf1
    simp only [determine_test_size, hfrac]
    rw [if_neg (by omega), if_neg (not_le.mpr hf0)]
  · intro hfrac hn6
    subst hn6
    have hdet : determine_test_size 6 config = 3 := by
      simp only [determine_test_size, hfrac]
      norm_num
    refine ⟨hdet, ?_⟩
    intro df hlen
    rw [hdet]
    simp only [train_test_split]
    rw [if_neg (by omega)]
    simp [hlen]

/-- A well-formed concrete configuration used by the concrete witnesses. -/
def sample_config : ForecastConfig :=
  { module_type := .statsforecast
    model_type := "naive"
    strategy := .multi_step_recursive
    freq := "D"
    season_length := 1
    horizon := 2
    lags := none
    input_size := none
    num_layers := none
    hidden_size := none
    epochs := none
    early_stop_patience := none
    early_stop_validation_fraction := none
    level := [80, 90]
    log_transform := false
    detect_frequency := true
    missing_strategy := .nothing
    date_start := none
    date_end := none
    test_size_fraction := some (1 / 2) }

/-- Witness for C1: 6 rows at fraction 1/2 give test size 3. -/
theorem single_holdout_test_size_witness :
    (2 : ℕ) ≤ 6 ∧ (0 : ℤ) < sample_config.horizon ∧
      determine_test_size 6 sample_config = 3 :=
  ⟨by norm_num, by decide,
    ((single_holdout_test_size 6 sample_config (by norm_num)
        (by decide)).2.2.2 rfl rfl).1⟩

/-- The rolling loop of `_one_step_forecast` in closed form: step `i` calls
the dispatcher on the training set extended by the first `i` true holdout
rows, always with horizon 1. -/
theorem one_step_loop_eq (m : List Row → ForecastConfig → ℚ)
    (cfg : ForecastConfig) :
    ∀ (hold rolling : List Row),
      one_step_loop m cfg rolling hold =
        ((List.range hold.length).map
            (fun i => m (rolling ++ hold.take i) { cfg with horizon := 1 }),
         (List.range hold.length).map
            (fun i => (rolling ++ hold.take i, { cfg with horizon := 1 }))) := by
  intro hold
  induction hold with
  | nil => intro rolling; simp [one_step_loop]
  | cons h t ih =>
      intro rolling
      simp only [one_step_loop, ih (rolling ++ [h]), List.length_cons,
        List.range_succ_eq_map, List.map_cons, List.map_map, List.take_zero,
        List.append_nil, Prod.mk.injEq]
      constructor
      · refine congrArg₂ _ rfl ?_
        refine List.map_congr_left (fun i _ => ?_)
        simp [List.take_succ_cons, List.append_assoc]
      · refine congrArg₂ _ rfl ?_
        refine List.map_congr_left (fun i _ => ?_)
        simp [List.take_succ_cons, List.append_assoc]

/-- **C2**: on a non-empty `p`-row holdout, `_one_step_forecast` invokes the
model dispatcher exactly `p` times, each time with horizon forced to 1 and
with the training set extended by the true holdout rows of all previous
steps, and accumulates exactly `p` point predictions keyed by the holdout
timestamps; a `None` or empty holdout yields an error. -/
theorem one_step_forecast_calls (m : List Row → ForecastConfig → ℚ)
    (train : List Row) (cfg : ForecastConfig) :
    one_step_forecast m train none cfg =
      .error "One-step forecasting requires holdout data." ∧
    one_step_forecast m train (some []) cfg =
      .error "One-step forecasting requires holdout data." ∧
    ∀ holdout : List Row, holdout ≠ [] →
      ∃ preds calls,
        one_step_forecast m train (some holdout) cfg = .ok (preds, calls) ∧
        calls = (List.range holdout.length).map
          (fun i => (train ++ holdout.take i, { cfg with horizon := 1 })) ∧
        calls.length = holdout.length ∧
        (∀ c ∈ calls, c.2.horizon = 1) ∧
        preds = (holdout.map Row.ds).zip
          ((List.range holdout.length).map
            (fun i => m (train ++ holdout.take i) { cfg with horizon := 1 })) ∧
        preds.length = holdout.length ∧
        preds.map Prod.fst = holdout.map Row.ds := by
  refine ⟨rfl, rfl, ?_⟩
  intro holdout hne
  refine ⟨_, _, ?_, rfl, ?_, ?_, rfl, ?_, ?_⟩
  · simp only [one_step_forecast, one_step_loop_eq]
    rw [if_neg (by simp [hne])]
  · simp
  · intro c hc
    simp only [List.mem_map, List.mem_range] at hc
    obtain ⟨i, -, rfl⟩ := hc
    rfl
  · simp
  · exact List.map_fst_zip _ _ (by simp)

/-- Witness for C2: one dispatcher call on a singleton holdout, keyed by its
timestamp. -/
theorem one_step_forecast_calls_witness :
    one_step_forecast (fun df _ => (df.length : ℚ)) [⟨0, 1⟩]
        (some [⟨1, 2⟩]) sample_config =
      .ok ([((1 : ℤ), (1 : ℚ))],
        [([⟨0, 1⟩], { sample_config with horizon := 1 })]) := by
  obtain ⟨preds, calls, hok, hcalls, -, -, hpreds, -, -⟩ :=
    (one_step_forecast_calls (fun df _ => (df.length : ℚ)) [⟨0, 1⟩]
      sample_config).2.2 [⟨1, 2⟩] (by simp)
  rw [hok, hcalls, hpreds]
  norm_num [List.range_succ]

/-- Evaluation of `List.mergeSort` on a two-element list. -/
theorem mergeSort_pair {α : Type} (le : α → α → Bool) (a b : α) :
    [a, b].mergeSort le = if le a b then [a, b] else [b, a] := by
  rw [List.mergeSort.eq_3]
  simp [List.splitInTwo, List.splitAt_eq, List.merge]

/-- One unfolding step of `List.mergeSort` on a three-element list. -/
theorem mergeSort_triple {α : Type} (le : α → α → Bool) (a b c : α) :
    [a, b, c].mergeSort le = ([a, b].mergeSort le).merge [c] le := by
  rw [List.mergeSort.eq_3]
  simp [List.splitInTwo, List.splitAt_eq]

/-- The comparison used by `_rank_leaderboard` is transitive. -/
theorem leaderboard_le_trans (a b c : LeaderboardEntry) :
    decide (leaderboard_score a ≤ leaderboard_score b) →
    decide (leaderboard_score b ≤ leaderboard_score c) →
    decide (leaderboard_score a ≤ leaderboard_score c) := by
  simp only [decide_eq_true_eq]
  exact le_trans

/-- The comparison used by `_rank_leaderboard` is total. -/
theorem leaderboard_le_total (a b : LeaderboardEntry) :
    decide (leaderboard_score a ≤ leaderboard_score b) ||
      decide (leaderboard_score b ≤ leaderboard_score a) := by
  simp only [Bool.or_eq_true, decide_eq_true_eq]
  exact le_total _ _

/-- **C4 (amended)**: the leaderboard is sorted ascending by the key "RMSE
when present, else MAE + 1,000,000, else +infinity"; consequently an
MAE-only entry sorts after every entry whose RMSE is *less than that MAE +
1,000,000* (not after arbitrary RMSE-bearing entries, see the
counterexample), entries with neither metric sort last, and on the
specification's example input the MAE-only entry lands between the
RMSE=1.5 entry and the metric-less entry. -/
theorem rank_leaderboard_ordering (rows : List LeaderboardEntry) :
    (rank_leaderboard rows).Pairwise
      (fun a b => leaderboard_score a ≤ leaderboard_score b) ∧
    (rank_leaderboard rows).Pairwise (fun a b =>
      ¬(a.metrics.rmse = none ∧ (∃ m, a.metrics.mae = some m ∧
          ∃ r, b.metrics.rmse = some r ∧ r < m + 1000000))) ∧
    (rank_leaderboard rows).Pairwise (fun a b =>
      leaderboard_score a = ⊤ → leaderboard_score b = ⊤) ∧
    rank_leaderboard
        [⟨"mae_only", ⟨some 2, none, none⟩⟩,
         ⟨"rmse_bearing", ⟨none, some (3 / 2), none⟩⟩,
         ⟨"no_metrics", ⟨none, none, none⟩⟩] =
      [⟨"rmse_bearing", ⟨none, some (3 / 2), none⟩⟩,
       ⟨"mae_only", ⟨some 2, none, none⟩⟩,
       ⟨"no_metrics", ⟨none, none, none⟩⟩] := by
  have hsorted : (rank_leaderboard rows).Pairwise
      (fun a b => leaderboard_score a ≤ leaderboard_score b) := by
    have h := List.sorted_mergeSort leaderboard_le_trans leaderboard_le_total rows
    exact h.imp (fun hab => by simpa using hab)
  refine ⟨hsorted, ?_, ?_, ?_⟩
  · refine hsorted.imp (fun {a b} hab => ?_)
    rintro ⟨hrnone, m, hmae, r, hrb, hlt⟩
    have ha : leaderboard_score a = ((m + 1000000 : ℚ) : WithTop ℚ) := by
      unfold leaderboard_score
      rw [hrnone, hmae]
    have hb : leaderboard_score b = ((r : ℚ) : WithTop ℚ) := by
      unfold leaderboard_score
      rw [hrb]
    rw [ha, hb, WithTop.coe_le_coe] at hab
    exact absurd hlt (not_lt.mpr hab)
  · refine hsorted.imp (fun {a b} hab => ?_)
    intro htop
    rw [htop, top_le_iff] at hab
    exact hab
  · rw [rank_leaderboard, mergeSort_triple, mergeSort_pair]
    simp only [leaderboard_score]
    norm_num [List.merge, ← WithTop.coe_ofNat, WithTop.coe_le_coe]

/-- **C4, counterexample to the frozen claim**: an MAE-only entry (MAE 2,
score 1,000,002) sorts *before* an RMSE-bearing entry whose RMSE is
2,000,000, so it is not true that every MAE-only entry sorts after every
entry having an RMSE. -/
theorem rank_leaderboard_mae_only_before_rmse :
    rank_leaderboard
        [⟨"rmse_bearing", ⟨none, some 2000000, none⟩⟩,
         ⟨"mae_only", ⟨some 2, none, none⟩⟩] =
      [⟨"mae_only", ⟨some 2, none, none⟩⟩,
       ⟨"rmse_bearing", ⟨none, some 2000000, none⟩⟩] := by
  rw [rank_leaderboard, mergeSort_pair]
  simp only [leaderboard_score]
  norm_num [List.merge, ← WithTop.coe_ofNat, WithTop.coe_le_coe]

/-- **C9**: ranking returns a permutation of its input, and the sort is
stable: two entries with equal ranking scores keep their relative
submission order. -/
theorem rank_leaderboard_perm_stable (rows : List LeaderboardEntry) :
    (rank_leaderboard rows).Perm rows ∧
    ∀ a b : LeaderboardEntry, leaderboard_score a = leaderboard_score b →
      [a, b].Sublist rows → [a, b].Sublist (rank_leaderboard rows) := by
  constructor
  · exact List.mergeSort_perm rows _
  · intro a b hab hsub
    exact List.pair_sublist_mergeSort leaderboard_le_trans leaderboard_le_total
      (by simp [hab]) hsub

/-- Witness for C9: two metric-less entries (equal scores `⊤`) keep their
submission order. -/
theorem rank_leaderboard_perm_stable_witness :
    (rank_leaderboard [⟨"a", ⟨none, none, none⟩⟩, ⟨"b", ⟨none, none, none⟩⟩]).Perm
        [⟨"a", ⟨none, none, none⟩⟩, ⟨"b", ⟨none, none, none⟩⟩] ∧
    [⟨"a", ⟨none, none, none⟩⟩, ⟨"b", ⟨none, none, none⟩⟩].Sublist
      (rank_leaderboard [⟨"a", ⟨none, none, none⟩⟩, ⟨"b", ⟨none, none, none⟩⟩]) :=
  ⟨(rank_leaderboard_perm_stable _).1,
   (rank_leaderboard_perm_stable _).2 _ _ rfl (List.Sublist.refl _)⟩

/-- **C6 (amended)**: the resolved model column is the *first non-interval
column in dataframe order* that lies in the candidate set {exact name,
lowercase, uppercase, capitalized, "mean"} (not the first candidate in
candidate-priority order, see the counterexample); only when no
non-interval column lies in the candidate set is the first non-interval
column returned, and an error is raised when no non-interval column
exists. -/
theorem resolve_model_column_first_match (columns : List String)
    (model_type : String) :
    (∀ c, (non_interval_columns columns).find?
        (fun col => col ∈ model_column_candidates model_type) = some c →
      resolve_model_column columns model_type = .ok c) ∧
    ((non_interval_columns columns).find?
        (fun col => col ∈ model_column_candidates model_type) = none →
      ∀ c rest, non_interval_columns columns = c :: rest →
        resolve_model_column columns model_type = .ok c) ∧
    (non_interval_columns columns = [] →
      resolve_model_column columns model_type =
        .error "Unable to locate forecast column in response.") := by
  refine ⟨?_, ?_, ?_⟩
  · intro c hc
    unfold resolve_model_column
    rw [hc]
  · intro hnone c rest hni
    unfold resolve_model_column
    rw [hnone, hni]
  · intro hni
    unfold resolve_model_column
    rw [hni]
    simp [List.find?]

/-- Witness for C6: on columns `["ds", "naive"]` with model `"naive"` the
exact-name column is found. -/
theorem resolve_model_column_first_match_witness :
    resolve_model_column ["ds", "naive"] "naive" = .ok "naive" :=
  (resolve_model_column_first_match ["ds", "naive"] "naive").1 "naive" rfl

/-- **C6, counterexample to the frozen claim**: with columns
`["ds", "mean", "naive"]` and model name `"naive"`, trying candidates in
priority order (exact name first) would return `"naive"`, but the code
scans columns in dataframe order and returns `"mean"`. -/
theorem resolve_model_column_returns_mean_over_exact :
    resolve_model_column ["ds", "mean", "naive"] "naive" = .ok "mean" ∧
      ("mean" : String) ≠ "naive" := by
  constructor
  · rfl
  · decide

/-- The error list over the aligned forecast/actual overlap, as the claim
words it: `actual - predicted` over the first `min(len, len)` positions. -/
def aligned_errors (y_true y_pred : List ℚ) : List ℚ :=
  List.zipWith (fun a b => a - b)
    (y_true.take (min y_true.length y_pred.length))
    (y_pred.take (min y_true.length y_pred.length))

/-- `(if c then none else some x) = none` holds exactly when `c` does. -/
theorem ite_none_some_eq_none_iff {α : Type} (c : Prop) [Decidable c] (x : α) :
    (if c then none else some x) = none ↔ c := by
  split <;> simp_all

/-- **C5**: over the aligned overlap, `_compute_metrics` returns
`MAE = mean |actual - predicted|` and `RMSE = √(mean (error²))`; MAPE is
computed only over rows with non-zero actual and is null exactly when every
aligned actual is 0 (MAE and RMSE are still returned in that case); an
empty input gives all-null metrics, as does an absent or empty holdout in
`_align_with_actuals`. -/
theorem compute_metrics_spec (y_true y_pred : List ℚ) :
    (y_true = [] ∨ y_pred = [] →
      compute_metrics y_true y_pred = ⟨none, none, none⟩) ∧
    (∀ fcst : List Row, (align_with_actuals fcst none).2 = none ∧
      (align_with_actuals fcst (some [])).2 = none) ∧
    (y_true ≠ [] → y_pred ≠ [] →
      (compute_metrics y_true y_pred).mae =
        some (((aligned_errors y_true y_pred).map (fun e => |e|)).sum /
          ((min y_true.length y_pred.length : ℕ) : ℚ)) ∧
      (compute_metrics y_true y_pred).rmse =
        some (Real.sqrt ((((aligned_errors y_true y_pred).map
            (fun e => e ^ 2)).sum /
          ((min y_true.length y_pred.length : ℕ) : ℚ) : ℚ) : ℝ)) ∧
      ((compute_metrics y_true y_pred).mape = none ↔
        ∀ a ∈ y_true.take (min y_true.length y_pred.length), a = 0)) := by
  refine ⟨?_, ?_, ?_⟩
  · rintro (h | h) <;> simp [compute_metrics, h]
  · intro fcst
    exact ⟨rfl, rfl⟩
  · intro ht hp
    have hcond : ¬(y_true = [] ∨ y_pred = []) := by tauto
    have hmae : (compute_metrics y_true y_pred).mae =
        some (((aligned_errors y_true y_pred).map (fun e => |e|)).sum /
          ((min y_true.length y_pred.length : ℕ) : ℚ)) := by
      unfold compute_metrics
      rw [if_neg hcond]
      rfl
    have hrmse : (compute_metrics y_true y_pred).rmse =
        some (Real.sqrt ((((aligned_errors y_true y_pred).map
            (fun e => e ^ 2)).sum /
          ((min y_true.length y_pred.length : ℕ) : ℚ) : ℚ) : ℝ)) := by
      unfold compute_metrics
      rw [if_neg hcond]
      rfl
    refine ⟨hmae, hrmse, ?_⟩
    have key : (compute_metrics y_true y_pred).mape = none ↔
        List.filter (fun x => decide (x.1 ≠ 0))
          ((y_true.take (min y_true.length y_pred.length)).zip
            (aligned_errors y_true y_pred)) = [] := by
      unfold compute_metrics
      rw [if_neg hcond]
      exact ite_none_some_eq_none_iff _ _
    rw [key, List.filter_eq_nil_iff]
    have hlen : (y_true.take (min y_true.length y_pred.length)).length ≤
        (aligned_errors y_true y_pred).length := by
      simp [aligned_errors]
    have hfst : ((y_true.take (min y_true.length y_pred.length)).zip
        (aligned_errors y_true y_pred)).map Prod.fst =
          y_true.take (min y_true.length y_pred.length) :=
      List.map_fst_zip _ _ hlen
    constructor
    · intro hall a ha
      rw [← hfst] at ha
      obtain ⟨p, hp, rfl⟩ := List.mem_map.mp ha
      simpa using hall p hp
    · intro hzero p hp
      have hmem : p.1 ∈ y_true.take (min y_true.length y_pred.length) := by
        have := List.mem_map_of_mem Prod.fst hp
        rwa [hfst] at this
      simp [hzero _ hmem]

/-- Witness for C5: actuals `[0, 0]` give a null MAPE while MAE is still
computed (here 3/2). -/
theorem compute_metrics_spec_witness :
    (compute_metrics [0, 0] [1, 2]).mape = none ∧
    (compute_metrics [0, 0] [1, 2]).mae = some (3 / 2) := by
  obtain ⟨-, -, h⟩ := compute_metrics_spec [0, 0] [1, 2]
  obtain ⟨hmae, -, hmape⟩ := h (by simp) (by simp)
  refine ⟨hmape.mpr ?_, ?_⟩
  · intro a ha
    simpa using ha
  · rw [hmae]
    norm_num [aligned_errors]

/-- **C8**: `_apply_log_transform` raises exactly when some value is ≤ -1;
otherwise it produces a new table with every value replaced by `log1p`
(this is the table handed to the model backends), while the split keeps the
untransformed rows alongside as the holdout actuals for real-scale metrics;
the input table itself is returned unchanged inside the error-free
pipeline (the source operates on a copy and never mutates its input). -/
theorem apply_log_transform_spec (df : List Row) :
    (apply_log_transform df =
        .error "log_transform requires all y values to be greater than -1." ↔
      ∃ r ∈ df, r.y ≤ -1) ∧
    ((∀ r ∈ df, -1 < r.y) →
      apply_log_transform df =
        .ok (df.map (fun r => LogRow.mk r.ds (log1p r.y)))) ∧
    (∀ h : ℤ, 0 < h → h < (df.length : ℤ) →
      ∀ tdf : List LogRow, apply_log_transform df = .ok tdf →
        (train_test_split tdf h (some df)).2.2 =
          some (df.drop (df.length - h.toNat))) := by
  refine ⟨?_, ?_, ?_⟩
  · unfold apply_log_transform
    by_cases hany : df.any (fun r => decide (r.y ≤ -1))
    · rw [if_pos hany]
      simp only [true_iff]
      simpa using hany
    · rw [if_neg hany]
      simp only [List.any_eq_true, decide_eq_true_eq] at hany
      simp [hany]
  · intro hall
    unfold apply_log_transform
    have hnot : ¬((df.any fun r => decide (r.y ≤ -1)) = true) := by
      simp only [List.any_eq_true, decide_eq_true_eq, not_exists]
      intro r hcon
      exact absurd hcon.2 (not_le.mpr (hall r hcon.1))
    rw [if_neg hnot]
  · intro h h0 hlt tdf htdf
    have hlen : tdf.length = df.length := by
      unfold apply_log_transform at htdf
      split at htdf
      · exact absurd htdf (by simp)
      · have heq := Except.ok.inj htdf
        rw [← heq]
        simp
    unfold train_test_split
    rw [if_neg (by push_cast [hlen]; omega)]
    simp

/-- Witness for C8: values `1, 2` are transformed, a value `-2` raises. -/
theorem apply_log_transform_spec_witness :
    apply_log_transform [⟨0, 1⟩, ⟨1, 2⟩] =
      .ok [⟨0, log1p 1⟩, ⟨1, log1p 2⟩] ∧
    apply_log_transform [⟨0, -2⟩] =
      .error "log_transform requires all y values to be greater than -1." := by
  constructor
  · exact (apply_log_transform_spec [⟨0, 1⟩, ⟨1, 2⟩]).2.1 (by decide)
  · exact (apply_log_transform_spec [⟨0, -2⟩]).1.mpr ⟨⟨0, -2⟩, by simp, by norm_num⟩

/-- An `Except` bind returning `ok` splits into two `ok` steps. -/
theorem except_bind_ok {α β : Type} {e : Except String α}
    {f : α → Except String β} {b : β} (h : e >>= f = .ok b) :
    ∃ a, e = .ok a ∧ f a = .ok b := by
  cases e with
  | error msg => simp [Bind.bind, Except.bind] at h
  | ok a => exact ⟨a, rfl, by simpa [Bind.bind, Except.bind] using h⟩

/-- A neural-sequence config without `input_size` fails the model validator
with the `input_size is required` error. -/
theorem vmc_neural_requires_input_size {c : ForecastConfig}
    (hmod : c.module_type = .neuralforecast) (hinput : c.input_size = none) :
    validate_module_combinations c =
      .error "input_size is required for NeuralForecast models." := by
  unfold validate_module_combinations
  rw [hmod]
  rw [if_pos hinput]

/-- A lag-regression config with falsy `lags` fails the model validator
with the `provide at least one lag` error. -/
theorem vmc_ml_requires_lags {c : ForecastConfig}
    (hmod : c.module_type = .mlforecast)
    (hlags : c.lags = none ∨ c.lags = some []) :
    validate_module_combinations c =
      .error "Provide at least one lag for MLForecast models." := by
  unfold validate_module_combinations
  rw [hmod]
  rw [if_pos hlags]

/-- A statistical config with the direct-multi-output strategy fails the
model validator. -/
theorem vmc_stats_rejects_direct {c : ForecastConfig}
    (hmod : c.module_type = .statsforecast)
    (hstrat : c.strategy = .multi_output_direct) :
    validate_module_combinations c =
      .error "multi_output_direct is not supported for StatsForecast." := by
  unfold validate_module_combinations
  rw [hmod]
  rw [if_pos hstrat]

/-- When the model validator succeeds it returns its input unchanged, and
that input satisfies the module/field legality constraints. -/
theorem vmc_ok {c cfg : ForecastConfig}
    (h : validate_module_combinations c = .ok cfg) :
    cfg = c ∧
    (c.module_type = .neuralforecast → c.input_size ≠ none) ∧
    (c.module_type = .mlforecast → c.lags ≠ none ∧ c.lags ≠ some []) ∧
    (c.module_type = .statsforecast → c.strategy ≠ .multi_output_direct) := by
  unfold validate_module_combinations at h
  cases hmod : c.module_type <;> rw [hmod] at h <;> split_ifs at h <;>
    simp_all

/-- Decomposition of a successful `ForecastConfig` construction: the model
validator accepted a record whose fields come from the per-field
validators. -/
theorem mkForecastConfig_ok {raw : RawConfig} {cfg : ForecastConfig}
    (h : mkForecastConfig raw = .ok cfg) :
    ∃ c : ForecastConfig,
      validate_module_combinations c = .ok cfg ∧
      c.module_type = raw.module_type ∧
      c.strategy = raw.strategy ∧
      validate_lags raw.lags = .ok c.lags ∧
      validate_input_size raw.input_size = .ok c.input_size ∧
      validate_levels raw.level = .ok c.level := by
  unfold mkForecastConfig at h
  obtain ⟨model_type, hmt, h⟩ := except_bind_ok h
  obtain ⟨freq, hfr, h⟩ := except_bind_ok h
  obtain ⟨season_length, hsl, h⟩ := except_bind_ok h
  obtain ⟨horizon, hh, h⟩ := except_bind_ok h
  obtain ⟨lags, hlg, h⟩ := except_bind_ok h
  obtain ⟨input_size, hin, h⟩ := except_bind_ok h
  obtain ⟨num_layers, hnl, h⟩ := except_bind_ok h
  obtain ⟨hidden_size, hhs, h⟩ := except_bind_ok h
  obtain ⟨epochs, hep, h⟩ := except_bind_ok h
  obtain ⟨patience, hpt, h⟩ := except_bind_ok h
  obtain ⟨es_fraction, hes, h⟩ := except_bind_ok h
  obtain ⟨level, hlv, h⟩ := except_bind_ok h
  obtain ⟨tsf, hts, h⟩ := except_bind_ok h
  exact ⟨_, h, rfl, rfl, hlg, hin, hlv⟩

/-- **C7**: the validator rejects every neural-sequence config without
`input_size` (with the `input_size is required` error), every
lag-regression config with no lags (with the `provide at least one lag`
error) and every statistical config requesting `multi_output_direct`; no
`ForecastConfig` violating these rules is ever produced by construction. -/
theorem config_family_constraints :
    (∀ c : ForecastConfig, c.module_type = .neuralforecast →
      c.input_size = none →
      validate_module_combinations c =
        .error "input_size is required for NeuralForecast models.") ∧
    (∀ c : ForecastConfig, c.module_type = .mlforecast →
      c.lags = none ∨ c.lags = some [] →
      validate_module_combinations c =
        .error "Provide at least one lag for MLForecast models.") ∧
    (∀ c : ForecastConfig, c.module_type = .statsforecast →
      c.strategy = .multi_output_direct →
      validate_module_combinations c =
        .error "multi_output_direct is not supported for StatsForecast.") ∧
    (∀ (raw : RawConfig) (cfg : ForecastConfig), mkForecastConfig raw = .ok cfg →
      (cfg.module_type = .neuralforecast → cfg.input_size ≠ none) ∧
      (cfg.module_type = .mlforecast → cfg.lags ≠ none ∧ cfg.lags ≠ some []) ∧
      (cfg.module_type = .statsforecast → cfg.strategy ≠ .multi_output_direct)) ∧
    (∀ raw : RawConfig, raw.module_type = .neuralforecast →
      raw.input_size = none →
      ∃ msg, mkForecastConfig raw = .error msg) ∧
    (∀ raw : RawConfig, raw.module_type = .mlforecast →
      raw.lags = none ∨ raw.lags = some [] →
      ∃ msg, mkForecastConfig raw = .error msg) ∧
    (∀ raw : RawConfig, raw.module_type = .statsforecast →
      raw.strategy = .multi_output_direct →
      ∃ msg, mkForecastConfig raw = .error msg) := by
  have hok : ∀ (raw : RawConfig) (cfg : ForecastConfig),
      mkForecastConfig raw = .ok cfg →
      (cfg.module_type = .neuralforecast → cfg.input_size ≠ none) ∧
      (cfg.module_type = .mlforecast → cfg.lags ≠ none ∧ cfg.lags ≠ some []) ∧
      (cfg.module_type = .statsforecast → cfg.strategy ≠ .multi_output_direct) := by
    intro raw cfg h
    obtain ⟨c, hvmc, hmod, hstrat, hlg, hin, hlv⟩ := mkForecastConfig_ok h
    obtain ⟨rfl, h1, h2, h3⟩ := vmc_ok hvmc
    exact ⟨h1, h2, h3⟩
  have herr : ∀ raw : RawConfig, (∀ cfg, mkForecastConfig raw ≠ .ok cfg) →
      ∃ msg, mkForecastConfig raw = .error msg := by
    intro raw hne
    cases hmk : mkForecastConfig raw with
    | error msg => exact ⟨msg, rfl⟩
    | ok cfg => exact absurd hmk (hne cfg)
  refine ⟨fun c => vmc_neural_requires_input_size,
    fun c => vmc_ml_requires_lags,
    fun c => vmc_stats_rejects_direct, hok, ?_, ?_, ?_⟩
  · intro raw hmod hinput
    refine herr raw (fun cfg hmk => ?_)
    obtain ⟨c, hvmc, hcmod, -, -, hin, -⟩ := mkForecastConfig_ok hmk
    rw [hinput] at hin
    have hcin : c.input_size = none := by
      have := Except.ok.inj hin
      exact this.symm
    rw [vmc_neural_requires_input_size (hcmod.trans hmod) hcin] at hvmc
    exact Except.noConfusion hvmc
  · intro raw hmod hlags
    refine herr raw (fun cfg hmk => ?_)
    obtain ⟨c, hvmc, hcmod, -, hlg, -, -⟩ := mkForecastConfig_ok hmk
    have hclags : c.lags = none ∨ c.lags = some [] := by
      rcases hlags with hl | hl <;> rw [hl] at hlg
      · exact Or.inl (Except.ok.inj hlg).symm
      · refine Or.inr ?_
        have := Except.ok.inj hlg
        simpa [validate_lags, sorted_unique] using this.symm
    rw [vmc_ml_requires_lags (hcmod.trans hmod) hclags] at hvmc
    exact Except.noConfusion hvmc
  · intro raw hmod hstrat
    refine herr raw (fun cfg hmk => ?_)
    obtain ⟨c, hvmc, hcmod, hcstrat, -, -, -⟩ := mkForecastConfig_ok hmk
    rw [vmc_stats_rejects_direct (hcmod.trans hmod) (hcstrat.trans hstrat)] at hvmc
    exact Except.noConfusion hvmc

/-- A concrete neural-sequence raw config without `input_size`. -/
def sample_neural_raw : RawConfig :=
  { module_type := .neuralforecast
    model_type := "mlp"
    strategy := .multi_step_recursive
    freq := "D"
    season_length := 1
    horizon := 2
    lags := none
    input_size := none
    num_layers := none
    hidden_size := none
    epochs := none
    early_stop_patience := none
    early_stop_validation_fraction := none
    level := none
    log_transform := false
    detect_frequency := true
    missing_strategy := .nothing
    date_start := none
    date_end := none
    test_size_fraction := none }

/-- Witness for C7: a concrete neural-sequence config without `input_size`
is rejected by construction. -/
theorem config_family_constraints_witness :
    ∃ msg, mkForecastConfig sample_neural_raw = .error msg :=
  config_family_constraints.2.2.2.2.1 sample_neural_raw rfl rfl

/-- The comparison used by `sorted(set(...))` on `ℤ` is transitive. -/
theorem int_le_decide_trans (a b c : ℤ) :
    decide (a ≤ b) → decide (b ≤ c) → decide (a ≤ c) := by
  simp only [decide_eq_true_eq]
  exact le_trans

/-- The comparison used by `sorted(set(...))` on `ℤ` is total. -/
theorem int_le_decide_total (a b : ℤ) :
    decide (a ≤ b) || decide (b ≤ a) := by
  simp only [Bool.or_eq_true, decide_eq_true_eq]
  exact le_total a b

/-- `sorted(set(l))` is strictly increasing. -/
theorem sorted_unique_sorted_lt (l : List ℤ) :
    (sorted_unique l).Sorted (· < ·) := by
  have hperm := List.mergeSort_perm l.dedup (fun a b => decide (a ≤ b))
  have hnodup : (sorted_unique l).Nodup := hperm.nodup_iff.mpr l.nodup_dedup
  have hsorted := List.sorted_mergeSort int_le_decide_trans int_le_decide_total l.dedup
  have hle : (sorted_unique l).Pairwise (fun a b : ℤ => a ≤ b) :=
    hsorted.imp (fun hab => by simpa using hab)
  exact (hle.and hnodup).imp (fun hab => lt_of_le_of_ne hab.1 hab.2)

/-- Membership in `sorted(set(l))` agrees with membership in `l`. -/
theorem mem_sorted_unique {l : List ℤ} {x : ℤ} :
    x ∈ sorted_unique l ↔ x ∈ l := by
  simp [sorted_unique]

/-- Everything `validate_levels` accepts is strictly increasing with all
entries in `[1, 99]`. -/
theorem validate_levels_ok {o : Option (List ℤ)} {ls : List ℤ}
    (h : validate_levels o = .ok ls) :
    ls.Sorted (· < ·) ∧ ∀ x ∈ ls, 1 ≤ x ∧ x ≤ 99 := by
  cases o with
  | none =>
      have hls : ls = [80, 90] := (Except.ok.inj h).symm
      subst hls
      exact ⟨by decide, by decide⟩
  | some l =>
      simp only [validate_levels] at h
      split_ifs at h with h1 h2
      have hls : ls = sorted_unique l := (Except.ok.inj h).symm
      subst hls
      refine ⟨sorted_unique_sorted_lt l, ?_⟩
      intro x hx
      simp only [List.any_eq_true, decide_eq_true_eq, not_exists, not_and,
        not_or] at h2
      have := h2 x hx
      omega

/-- **C10**: every successfully constructed `ForecastConfig` carries a
strictly increasing duplicate-free confidence-level list with entries in
`[1, 99]`; a null level field defaults to `[80, 90]`; an explicitly empty
list is rejected; duplicated or unsorted levels are normalized (dedup +
sort), not rejected — e.g. `[90, 80, 80]` becomes `[80, 90]`. -/
theorem config_levels_invariant :
    (∀ (raw : RawConfig) (cfg : ForecastConfig), mkForecastConfig raw = .ok cfg →
      cfg.level.Sorted (· < ·) ∧ ∀ lvl ∈ cfg.level, 1 ≤ lvl ∧ lvl ≤ 99) ∧
    validate_levels none = .ok [80, 90] ∧
    validate_levels (some []) =
      .error "At least one confidence level is required." ∧
    (∀ l : List ℤ, l ≠ [] → (∀ lvl ∈ l, 1 ≤ lvl ∧ lvl ≤ 99) →
      validate_levels (some l) = .ok (sorted_unique l)) ∧
    validate_levels (some [90, 80, 80]) = .ok [80, 90] := by
  refine ⟨?_, rfl, ?_, ?_, ?_⟩
  · intro raw cfg h
    obtain ⟨c, hvmc, -, -, -, -, hlv⟩ := mkForecastConfig_ok h
    obtain ⟨rfl, -⟩ := vmc_ok hvmc
    exact validate_levels_ok hlv
  · simp only [validate_levels]
    rw [if_pos (by simp [sorted_unique])]
  · intro l hne hrange
    simp only [validate_levels]
    rw [if_neg ?hnil, if_neg ?hany]
    case hnil =>
      obtain ⟨x, hx⟩ := List.exists_mem_of_ne_nil l hne
      intro hnil
      have hmem : x ∈ sorted_unique l := mem_sorted_unique.mpr hx
      rw [hnil] at hmem
      exact absurd hmem (List.not_mem_nil x)
    case hany =>
      simp only [List.any_eq_true, decide_eq_true_eq, not_exists, not_and,
        not_or]
      intro x hx
      have := hrange x (mem_sorted_unique.mp hx)
      omega
  · have hsu : sorted_unique [90, 80, 80] = [80, 90] := by
      unfold sorted_unique
      rw [show ([90, 80, 80] : List ℤ).dedup = [90, 80] from by decide]
      rw [mergeSort_pair]
      norm_num
    simp only [validate_levels]
    rw [hsu]
    rfl

/-- Witness for C10: a concrete defaulted construction carries the default
levels, which are strictly increasing and in range. -/
theorem config_levels_invariant_witness :
    validate_levels (some [90, 80, 80]) = .ok [80, 90] ∧
    validate_levels none = .ok [80, 90] :=
  ⟨config_levels_invariant.2.2.2.2, config_levels_invariant.2.1⟩
